import Mathlib

/-!
Shallow embedding of the MoySklad Telegram bot's sales aggregation and
reporting engine (src/moysklad_api.py, src/scheduler.py, src/security.py).

Modelling conventions:
* Python floats over money/quantity are modelled as exact rationals (ℚ);
  raw upstream sums are kept in minor units (kopecks) and divided by 100
  exactly where the source divides.
* Python dicts that are only read field-wise become structures; optional
  keys become `Option`.  Insertion-ordered dict accumulators become
  association lists with append-on-new-key update.
* Network fetches are effects: each fetching function takes the fetched
  rows as an `Option (List _)` argument (`none` = request failed or the
  response lacked a `rows` key), matching `_make_request`'s `None` results.
* Python `int(x)` truncation toward zero is `int_trunc`; Python
  `round(x, 2)` (round-half-to-even at two decimals) is `round2`.
* Python string slicing `s[:n]` is `str_take s n` (both slice by
  characters); Python lexicographic string comparison is `str_le`
  (code-point lexicographic, a proper prefix below any extension).
-/

/-- Python `s[:n]`: the first `n` characters of `s`. -/
def str_take (s : String) (n : ℕ) : String := ⟨s.data.take n⟩

/-- Lexicographic `≤` on character lists by code point, with a proper
prefix comparing below any extension — Python's `<=` on strings. -/
def chars_le : List Char → List Char → Bool
  | [], _ => true
  | _ :: _, [] => false
  | a :: as, b :: bs => if a = b then chars_le as bs else decide (a.val < b.val)

/-- Python `a <= b` on strings. -/
def str_le (a b : String) : Bool := chars_le a.data b.data

/-- Python `int(q)`: truncation toward zero. -/
def int_trunc (q : ℚ) : ℤ := if 0 ≤ q then ⌊q⌋ else ⌈q⌉

/-- Banker's rounding of `q` to the nearest integer (Python `round(q)`). -/
def round_half_even (q : ℚ) : ℤ :=
  if q - ⌊q⌋ < 1 / 2 then ⌊q⌋
  else if 1 / 2 < q - ⌊q⌋ then ⌊q⌋ + 1
  else if 2 ∣ ⌊q⌋ then ⌊q⌋ else ⌊q⌋ + 1

/-- Python `round(q, 2)`. -/
def round2 (q : ℚ) : ℚ := (round_half_even (q * 100) : ℚ) / 100

/-- One line item of an order / retail demand (`positions` row): only the
`quantity` key is read by the aggregation code. -/
structure Position where
  quantity : ℚ
deriving Repr, DecidableEq

/-- One raw customer order row (`entity/customerorder`), with the keys the
code reads: `id`, `name`, `created`, `sum` (minor units), `positions.rows`,
`state.name`. -/
structure Order where
  id : Option String
  name : Option String
  created : Option String
  sum : ℚ
  positions : List Position
  state : Option String
deriving Repr, DecidableEq

/-- One entry of `MoyskladReport.details` as built in `get_sales_report`. -/
structure OrderDetail where
  id : Option String
  name : String
  sum : ℚ
  created : String
  state : String
deriving Repr, DecidableEq

/-- `MoyskladReport` dataclass. -/
structure MoyskladReport where
  period : String
  total_sales : ℚ
  total_orders : ℕ
  average_order : ℚ
  products_count : ℤ
  details : List OrderDetail
deriving Repr, DecidableEq

/-- `f"{date_from} - {date_to}" if date_from != date_to else date_from`. -/
def mk_period (date_from date_to : String) : String :=
  if date_from ≠ date_to then date_from ++ " - " ++ date_to else date_from

/-- The date-window keep test of `get_sales_report`'s local re-filtering
loop: an order is kept when it has no truthy `created` value, or when
`created[:10]` lies in `[date_from, date_to]`. -/
def keep_order (date_from date_to : String) (o : Order) : Bool :=
  match o.created with
  | none => true
  | some c =>
    if c = "" then true
    else str_le date_from (str_take c 10) && str_le (str_take c 10) date_to

/-- The local re-filtering loop of `get_sales_report` (lines 260-276). -/
def filter_orders (date_from date_to : String) (orders : List Order) : List Order :=
  orders.filter (keep_order date_from date_to)

/-- `order.get('sum', 0) / 100`. -/
def order_sum_rub (o : Order) : ℚ := o.sum / 100

/-- Quantity contributed by one order to `products_count`: positions are
only counted when the order has an `id` (the `if order_id:` guard). -/
def order_quantity (o : Order) : ℚ :=
  match o.id with
  | some _ => (o.positions.map (·.quantity)).sum
  | none => 0

/-- `order.get('name', f"Заказ {order_id[:8]}" if order_id else "Без номера")`. -/
def order_name (o : Order) : String :=
  match o.name with
  | some n => n
  | none =>
    match o.id with
    | some i => "Заказ " ++ str_take i 8
    | none => "Без номера"

/-- `order.get('created', '')[:10] if order.get('created') else 'Неизвестно'`. -/
def order_created_display (o : Order) : String :=
  match o.created with
  | some c => if c = "" then "Неизвестно" else str_take c 10
  | none => "Неизвестно"

/-- One `details` entry of the `get_sales_report` loop. -/
def mk_order_detail (o : Order) : OrderDetail :=
  { id := o.id
    name := order_name o
    sum := order_sum_rub o
    created := order_created_display o
    state := o.state.getD "Новый" }

/-- `MoyskladAPI.get_sales_report`, with the upstream fetch result passed
in (`none` models a failed request / missing `rows`). -/
def get_sales_report (date_from date_to : String) (fetched : Option (List Order)) :
    Option MoyskladReport :=
  match fetched with
  | none => none
  | some rows =>
    let orders := filter_orders date_from date_to rows
    if orders.length = 0 then
      some { period := mk_period date_from date_to
             total_sales := 0
             total_orders := 0
             average_order := 0
             products_count := 0
             details := [] }
    else
      let total_sales := (orders.map order_sum_rub).sum
      let products_count := (orders.map order_quantity).sum
      let total_orders := orders.length
      let average_order := if 0 < total_orders then total_sales / (total_orders : ℚ) else 0
      some { period := mk_period date_from date_to
             total_sales := total_sales
             total_orders := total_orders
             average_order := average_order
             products_count := int_trunc products_count
             details := (orders.map mk_order_detail).take 10 }

/-- The three order-independent accumulators of the `get_sales_report`
reduction loop: running sum of `sum/100`, record count, running sum of
position quantities. -/
def sales_totals (orders : List Order) : ℚ × ℕ × ℚ :=
  ((orders.map order_sum_rub).sum, orders.length, (orders.map order_quantity).sum)

/-- One raw retail demand row (`entity/retaildemand`): keys read are `id`,
`name`, `sum` (minor units), `moment`, `positions.rows`, `retailStore.name`
(`store`), `retailShift` (`shift`, carrying the shift display name). -/
structure Demand where
  id : Option String
  name : Option String
  sum : ℚ
  moment : String
  positions : List Position
  store : Option String
  shift : Option String
deriving Repr, DecidableEq

/-- One raw retail sales return row (`entity/retailsalesreturn`). -/
structure ReturnItem where
  id : Option String
  name : Option String
  sum : ℚ
  moment : String
  positions : List Position
  store : Option String
deriving Repr, DecidableEq

/-- One entry of `retail_points_list`: `{'name', 'sales', 'share'}`. -/
structure StorePoint where
  name : String
  sales : ℚ
  share : ℚ
deriving Repr, DecidableEq

/-- One `cashier_info` dict. -/
structure CashierInfo where
  name : String
  store : String
  sum : ℚ
  shift : Option String
deriving Repr, DecidableEq

/-- One entry of `RetailSalesReport.details`. -/
structure RetailDetail where
  id : Option String
  name : String
  sum : ℚ
  date : String
  store : String
  kind : String
  positions_count : ℕ
deriving Repr, DecidableEq

/-- `RetailSalesReport` dataclass (its own structure rather than an
extension of `MoyskladReport`, because its `details` entries have a
different shape). -/
structure RetailSalesReport where
  period : String
  total_sales : ℚ
  total_orders : ℕ
  average_order : ℚ
  products_count : ℤ
  details : List RetailDetail
  retail_points : List StorePoint
  cashiers : List CashierInfo
  returns_count : ℕ
  returns_sum : ℚ
deriving Repr, DecidableEq

/-- `demand.get('retailStore', {}).get('name', 'Не указана')`. -/
def demand_store_name (d : Demand) : String := d.store.getD "Не указана"

def demand_sum_rub (d : Demand) : ℚ := d.sum / 100

def demand_quantity (d : Demand) : ℚ := (d.positions.map (·.quantity)).sum

/-- `return_item.get('retailStore', {}).get('name', 'Не указана')`. -/
def return_store_name (r : ReturnItem) : String := r.store.getD "Не указана"

/-- `abs(return_item.get('sum', 0) / 100)`: returns are taken by absolute
value. -/
def return_sum_rub (r : ReturnItem) : ℚ := |r.sum / 100|

def return_quantity (r : ReturnItem) : ℚ := (r.positions.map (·.quantity)).sum

/-- `retail_points[k] = retail_points.get(k, 0) + v` on an insertion-ordered
dict modelled as an association list (new keys are appended). -/
def bump_store : List (String × ℚ) → String → ℚ → List (String × ℚ)
  | [], k, v => [(k, v)]
  | (k', v') :: rest, k, v =>
    if k' = k then (k', v' + v) :: rest else (k', v') :: bump_store rest k v

/-- `cashiers[k] = v` on an insertion-ordered dict (assignment replaces the
value in place, new keys are appended). -/
def upsert_cashier : List (Option String × CashierInfo) → Option String → CashierInfo →
    List (Option String × CashierInfo)
  | [], k, v => [(k, v)]
  | (k', v') :: rest, k, v =>
    if k' = k then (k', v) :: rest else (k', v') :: upsert_cashier rest k v

def mk_cashier (d : Demand) : CashierInfo :=
  { name := d.name.getD "Без номера"
    store := demand_store_name d
    sum := demand_sum_rub d
    shift := d.shift }

def mk_sale_detail (d : Demand) : RetailDetail :=
  { id := d.id
    name := d.name.getD "Без номера"
    sum := demand_sum_rub d
    date := str_take d.moment 10
    store := demand_store_name d
    kind := "Розничная продажа"
    positions_count := d.positions.length }

def mk_return_detail (r : ReturnItem) : RetailDetail :=
  { id := r.id
    name := r.name.getD "Без номера"
    sum := -(return_sum_rub r)
    date := str_take r.moment 10
    store := return_store_name r
    kind := "Возврат"
    positions_count := r.positions.length }

/-- `retail_points` after the sales pass (loop 1). -/
def points_after_sales (ds : List Demand) : List (String × ℚ) :=
  ds.foldl (fun pts d => bump_store pts (demand_store_name d) (demand_sum_rub d)) []

/-- `retail_points` after also subtracting returns (loop 2): subtract when
the store is present, otherwise start it at the negated return sum. -/
def points_after_returns (pts : List (String × ℚ)) (rs : List ReturnItem) :
    List (String × ℚ) :=
  rs.foldl (fun pts r => bump_store pts (return_store_name r) (-(return_sum_rub r))) pts

/-- Sort relation of `retail_points_list.sort(key=sales, reverse=True)`. -/
def store_ge (a b : StorePoint) : Prop := b.sales ≤ a.sales

instance : DecidableRel store_ge := fun a b => inferInstanceAs (Decidable (b.sales ≤ a.sales))

instance : IsTotal StorePoint store_ge := ⟨fun a b => le_total b.sales a.sales⟩

instance : IsTrans StorePoint store_ge := ⟨fun _ _ _ h h' => le_trans h' h⟩

/-- `MoyskladAPI.get_retail_sales_report`, with the two upstream fetch
results passed in: `demands_res` is the `entity/retaildemand` response
(`none` = failed / no `rows` key, aborting the report); `returns_res` is
the `entity/retailsalesreturn` response (a failure degrades to an empty
returns list). -/
def get_retail_sales_report (date_from date_to : String)
    (demands_res : Option (List Demand)) (returns_res : Option (List ReturnItem)) :
    Option RetailSalesReport :=
  match demands_res with
  | none => none
  | some ds =>
    let rs := returns_res.getD []
    let total_sales := (ds.map demand_sum_rub).sum
    let returns_sum := (rs.map return_sum_rub).sum
    let products_count := (ds.map demand_quantity).sum - (rs.map return_quantity).sum
    let net_sales := total_sales - returns_sum
    let pts := points_after_returns (points_after_sales ds) rs
    let points_list :=
      ((pts.filter fun p => 0 < p.2).map fun p =>
        (⟨p.1, p.2, if 0 < net_sales then p.2 / net_sales * 100 else 0⟩ : StorePoint)).insertionSort
        store_ge
    let cashiers := ds.foldl (fun cs d => upsert_cashier cs d.id (mk_cashier d)) []
    some { period := mk_period date_from date_to
           total_sales := total_sales
           total_orders := ds.length
           average_order := if 0 < ds.length then total_sales / (ds.length : ℚ) else 0
           products_count := int_trunc (max products_count 0)
           details := (ds.map mk_sale_detail ++ rs.map mk_return_detail).take 20
           retail_points := points_list.take 10
           cashiers := (cashiers.map Prod.snd).take 10
           returns_count := rs.length
           returns_sum := returns_sum }

/-- `CombinedSalesReport` dataclass. -/
structure CombinedSalesReport where
  period : String
  retail : RetailSalesReport
  orders : MoyskladReport
  combined_total : ℚ
  combined_orders : ℕ
  retail_share : ℚ
  orders_share : ℚ
deriving Repr, DecidableEq

/-- `MoyskladAPI.get_combined_sales_report`, with the two sub-report
results passed in (each is what `get_retail_sales_report` /
`get_sales_report` returned for the window).  When either sub-report is
missing the whole combined report is `none` (lines 561-563). -/
def get_combined_sales_report (date_from date_to : String)
    (retail_report : Option RetailSalesReport) (orders_report : Option MoyskladReport) :
    Option CombinedSalesReport :=
  match retail_report, orders_report with
  | some retail, some orders =>
    let combined_total := retail.total_sales + orders.total_sales
    some { period := mk_period date_from date_to
           retail := retail
           orders := orders
           combined_total := combined_total
           combined_orders := retail.total_orders + orders.total_orders
           retail_share := if 0 < combined_total then retail.total_sales / combined_total * 100 else 0
           orders_share := if 0 < combined_total then orders.total_sales / combined_total * 100 else 0 }
  | _, _ => none

/-- One of `today_data` / `week_data` / `month_data` in `QuickReport`. -/
structure PeriodData where
  retail_sales : ℚ
  retail_count : ℕ
  order_sales : ℚ
  order_count : ℕ
deriving Repr, DecidableEq

/-- The `... if report else 0` zero-substitution `get_quick_report` applies
to each branch of the fan-out. -/
def mk_period_data (retail : Option RetailSalesReport) (orders : Option MoyskladReport) :
    PeriodData :=
  { retail_sales := (retail.map (·.total_sales)).getD 0
    retail_count := (retail.map (·.total_orders)).getD 0
    order_sales := (orders.map (·.total_sales)).getD 0
    order_count := (orders.map (·.total_orders)).getD 0 }

/-- `QuickReport` dataclass. -/
structure QuickReport where
  today_date : String
  week_period : String
  month_name : String
  today_data : PeriodData
  week_data : PeriodData
  month_data : PeriodData
deriving Repr, DecidableEq

/-- `MoyskladAPI.get_quick_report`, with the six parallel sub-fetch results
passed in.  The join substitutes zeros for any failed branch and always
produces a report (the source's `except` branch is unreachable for pure
data assembly). -/
def get_quick_report (today_date week_period month_name : String)
    (today_retail : Option RetailSalesReport) (today_orders : Option MoyskladReport)
    (week_retail : Option RetailSalesReport) (week_orders : Option MoyskladReport)
    (month_retail : Option RetailSalesReport) (month_orders : Option MoyskladReport) :
    Option QuickReport :=
  some { today_date := today_date
         week_period := week_period
         month_name := month_name
         today_data := mk_period_data today_retail today_orders
         week_data := mk_period_data week_retail week_orders
         month_data := mk_period_data month_retail month_orders }

/-- `AnalyticsCalculator.calculate_growth` result dict. -/
structure Growth where
  change : ℚ
  percent : ℚ
  direction : String
deriving Repr, DecidableEq

/-- `AnalyticsCalculator.calculate_growth`. -/
def calculate_growth (current previous : ℚ) : Growth :=
  if previous = 0 then
    { change := current
      percent := if 0 < current then 100 else 0
      direction := if 0 < current then "up" else "same" }
  else
    let change := current - previous
    let percent := change / |previous| * 100
    { change := change
      percent := percent
      direction := if 0 < percent then "up" else if percent < 0 then "down" else "same" }

/-- One line item as consumed by `get_top_products`: resolved product name,
`quantity`, and raw `price` in minor units. -/
structure LineItem where
  name : String
  quantity : ℚ
  price : ℚ
deriving Repr, DecidableEq

/-- One entry of the `products` accumulator / of the returned top list:
`{name, quantity, amount}`. -/
structure ProductStat where
  name : String
  quantity : ℚ
  amount : ℚ
deriving Repr, DecidableEq

/-- `products.setdefault(name, {...}); item["quantity"] += q; item["amount"] += a`
on an insertion-ordered dict modelled as a list (new names appended). -/
def bump_product : List ProductStat → String → ℚ → ℚ → List ProductStat
  | [], n, q, a => [⟨n, q, a⟩]
  | s :: rest, n, q, a =>
    if s.name = n then ⟨s.name, s.quantity + q, s.amount + a⟩ :: rest
    else s :: bump_product rest n q a

/-- The per-line-item accumulation of `get_top_products` (both channels):
`amount = quantity * (price / 100)`. -/
def accumulate_products (items : List LineItem) : List ProductStat :=
  items.foldl (fun ps it => bump_product ps it.name it.quantity (it.quantity * (it.price / 100))) []

/-- The ranking relation of `sorted(key=(amount, quantity), reverse=True)`:
`a` may come before `b` when `b`'s key is lexicographically ≤ `a`'s. -/
def rank_ge (a b : ProductStat) : Prop :=
  b.amount < a.amount ∨ (b.amount = a.amount ∧ b.quantity ≤ a.quantity)

instance : DecidableRel rank_ge := fun a b =>
  inferInstanceAs (Decidable (b.amount < a.amount ∨ (b.amount = a.amount ∧ b.quantity ≤ a.quantity)))

instance : IsTotal ProductStat rank_ge :=
  ⟨fun a b => by
    rcases lt_trichotomy a.amount b.amount with h | h | h
    · exact Or.inr (Or.inl h)
    · rcases le_total a.quantity b.quantity with hq | hq
      · exact Or.inr (Or.inr ⟨h, hq⟩)
      · exact Or.inl (Or.inr ⟨h.symm, hq⟩)
    · exact Or.inl (Or.inl h)⟩

instance : IsTrans ProductStat rank_ge :=
  ⟨fun a b c hab hbc => by
    rcases hab with h1 | ⟨h1, h1q⟩ <;> rcases hbc with h2 | ⟨h2, h2q⟩
    · exact Or.inl (h2.trans h1)
    · exact Or.inl (h2 ▸ h1)
    · exact Or.inl (h1 ▸ h2)
    · exact Or.inr ⟨h2.trans h1, h2q.trans h1q⟩⟩

/-- Output rounding of one top entry: `round(·, 2)` on quantity and amount. -/
def round_stat (s : ProductStat) : ProductStat :=
  ⟨s.name, round2 s.quantity, round2 s.amount⟩

/-- `MoyskladAPI.get_top_products` from the accumulated per-product mapping
(lines 666-690): `None` when no products were accumulated, otherwise sort
by `(amount, quantity)` descending, slice the first `limit`, and keep only
entries whose accumulated quantity is strictly positive. -/
def get_top_products (products : List ProductStat) (limit : ℕ) :
    Option (List ProductStat) :=
  if products = [] then none
  else
    let sorted_items := products.insertionSort rank_ge
    some (((sorted_items.take limit).filter fun s => 0 < s.quantity).map round_stat)

/-- `SecurityManager.decrypt`, with the Fernet primitive abstracted as an
oracle (`none` = the library call raised).  Empty input and any failure
both yield the empty string; the function is total. -/
def decrypt (fernet_dec : String → Option String) (encrypted_data : String) : String :=
  if encrypted_data = "" then ""
  else
    match fernet_dec encrypted_data with
    | some result => result
    | none => ""

/-- The effect environment of one dispatcher run
(`StatisticsScheduler._send_reports_to_users`):
* `dec` is `security.decrypt` (total, `""` on failure — see `decrypt`);
* `get_report` is `api_factory(token).get_combined_sales_report(...)` for
  the resolved window;
* `send_ok user_id` is whether delivering to that user (and the follow-up
  request logging) completes without raising. -/
structure DispatchEnv where
  dec : String → String
  get_report : String → Option CombinedSalesReport
  send_ok : ℤ → Bool

/-- The aggregate state the dispatcher reports after the loop, plus the
list of tenants it attempted (every loop iteration appends its user). -/
structure DispatchResult where
  successes : ℕ
  failures : ℕ
  attempted : List ℤ
deriving Repr, DecidableEq

/-- One iteration of the per-tenant loop (lines 153-213): decrypt the
credential — an empty result is a per-tenant failure; fetch the combined
report — a missing report still sends a "no data" notice and counts as a
success when delivery works; any delivery/logging exception is a
per-tenant failure.  Returns `true` on success. -/
def process_tenant (env : DispatchEnv) (user : ℤ × String) : Bool :=
  let api_token := env.dec user.2
  if api_token = "" then false
  else
    match env.get_report api_token with
    | none => env.send_ok user.1
    | some _ => env.send_ok user.1

/-- The dispatcher loop over all subscribed tenants: every tenant is
processed independently and contributes exactly one success or failure. -/
def send_reports_to_users (env : DispatchEnv) : List (ℤ × String) → DispatchResult
  | [] => ⟨0, 0, []⟩
  | user :: rest =>
    let ok := process_tenant env user
    let r := send_reports_to_users env rest
    ⟨(if ok then 1 else 0) + r.successes, (if ok then 0 else 1) + r.failures,
      user.1 :: r.attempted⟩

/-- A concrete orders report used in scenarios and witnesses. -/
def sample_orders_report : MoyskladReport :=
  { period := "2024-01-05"
    total_sales := 100
    total_orders := 2
    average_order := 50
    products_count := 3
    details := [] }

/-- A concrete retail report used in scenarios and witnesses. -/
def sample_retail_report : RetailSalesReport :=
  { period := "2024-01-05"
    total_sales := 300
    total_orders := 4
    average_order := 75
    products_count := 5
    details := []
    retail_points := []
    cashiers := []
    returns_count := 0
    returns_sum := 0 }

/-- A concrete combined report used by the dispatcher scenario. -/
def sample_combined_report : CombinedSalesReport :=
  { period := "2024-01-05"
    retail := sample_retail_report
    orders := sample_orders_report
    combined_total := 400
    combined_orders := 6
    retail_share := 75
    orders_share := 25 }

/-- Dispatcher scenario environment: tenant B's credential blob `"encB"`
fails to decrypt (decrypt yields `""`), every other blob decrypts, every
report fetch succeeds, and every delivery succeeds. -/
def scenario_env : DispatchEnv :=
  { dec := fun blob => if blob = "encB" then "" else "tok"
    get_report := fun _ => some sample_combined_report
    send_ok := fun _ => true }

/-- A concrete Fernet oracle for witnesses: only `"blob"` decrypts. -/
def sample_fernet : String → Option String :=
  fun s => if s = "blob" then some "token" else none

/-- The retail report produced for an empty window `2024-02-02`. -/
def empty_retail_report : RetailSalesReport :=
  { period := "2024-02-02"
    total_sales := 0
    total_orders := 0
    average_order := 0
    products_count := 0
    details := []
    retail_points := []
    cashiers := []
    returns_count := 0
    returns_sum := 0 }

/-- Return-netting scenario: one sale of 100 ₽ (raw 10000 kopecks). -/
def c6_demand : Demand :=
  { id := some "d1"
    name := some "Продажа 1"
    sum := 10000
    moment := "2024-01-05 12:00:00"
    positions := [⟨1⟩]
    store := some "Точка"
    shift := none }

/-- Return-netting scenario: one return of magnitude 40 ₽ (raw -4000). -/
def c6_return : ReturnItem :=
  { id := some "r1"
    name := some "Возврат 1"
    sum := -4000
    moment := "2024-01-06 12:00:00"
    positions := [⟨1⟩]
    store := some "Точка" }

/-- The retail report the code produces from `c6_demand` and `c6_return`. -/
def c6_report : RetailSalesReport :=
  { period := "2024-01-01 - 2024-01-31"
    total_sales := 100
    total_orders := 1
    average_order := 100
    products_count := 0
    details := [mk_sale_detail c6_demand, mk_return_detail c6_return]
    retail_points := [⟨"Точка", 60, 100⟩]
    cashiers := [mk_cashier c6_demand]
    returns_count := 1
    returns_sum := 40 }

/-- An in-window order with a single half-unit position (quantities can be
fractional upstream, e.g. weighed goods). -/
def half_order (i : String) : Order :=
  { id := some i
    name := some "Заказ"
    created := some "2024-01-05 10:00:00"
    sum := 0
    positions := [⟨1 / 2⟩]
    state := none }

/-- C9: for every date window, a well-formed but empty upstream record set
makes `get_sales_report` return an all-zero report (not a failure value). -/
theorem c9_empty_window_zero_report (date_from date_to : String) :
    get_sales_report date_from date_to (some []) =
      some { period := mk_period date_from date_to
             total_sales := 0
             total_orders := 0
             average_order := 0
             products_count := 0
             details := [] } := rfl

/-- C3: `calculate_growth` is total; when `previous = 0` the percent is
`100` if `current > 0` else `0`; and the direction is `"up"` exactly when
the percent is positive, `"down"` exactly when negative, `"same"` exactly
when zero. -/
theorem c3_growth_direction (current previous : ℚ) :
    (previous = 0 →
      (calculate_growth current previous).percent = if 0 < current then 100 else 0) ∧
    ((calculate_growth current previous).direction = "up" ↔
      0 < (calculate_growth current previous).percent) ∧
    ((calculate_growth current previous).direction = "down" ↔
      (calculate_growth current previous).percent < 0) ∧
    ((calculate_growth current previous).direction = "same" ↔
      (calculate_growth current previous).percent = 0) := by
  by_cases hp : previous = 0
  · refine ⟨fun _ => by simp [calculate_growth, hp], ?_, ?_, ?_⟩ <;>
      by_cases hc : 0 < current <;>
        simp [calculate_growth, hp, hc]
  · refine ⟨fun h => absurd h hp, ?_, ?_, ?_⟩ <;>
    · rcases lt_trichotomy ((current - previous) / |previous| * 100) 0 with h | h | h
      · simp [calculate_growth, hp, h, lt_asymm h, ne_of_lt h]
      · simp [calculate_growth, hp, h]
      · simp [calculate_growth, hp, h, lt_asymm h, ne_of_gt h]

/-- Witness for C3 at `current = 5`, `previous = 0`. -/
theorem c3_growth_direction_witness :
    ((calculate_growth 5 0).percent = if (0 : ℚ) < 5 then (100 : ℚ) else 0) ∧
      ((calculate_growth 5 0).direction = "up" ↔ 0 < (calculate_growth 5 0).percent) :=
  ⟨(c3_growth_direction 5 0).1 rfl, (c3_growth_direction 5 0).2.1⟩

/-- C1: the dispatcher attempts every subscribed tenant regardless of
earlier per-tenant failures, each tenant contributes exactly one success
or one failure to the aggregate counts it reports after the loop, and in
the 3-tenant scenario where only tenant B's credential fails to decrypt,
tenants A and C are still attempted and succeed with reported counts
`successes = 2, failures = 1`. -/
theorem c1_dispatcher_fault_isolation :
    (∀ (env : DispatchEnv) (users : List (ℤ × String)),
      (send_reports_to_users env users).attempted = users.map Prod.fst ∧
      (send_reports_to_users env users).successes +
        (send_reports_to_users env users).failures = users.length) ∧
    send_reports_to_users scenario_env [(1, "encA"), (2, "encB"), (3, "encC")] =
      { successes := 2, failures := 1, attempted := [1, 2, 3] } := by
  refine ⟨fun env users => ?_, by decide⟩
  induction users with
  | nil => exact ⟨rfl, rfl⟩
  | cons u rest ih =>
    refine ⟨by simp [send_reports_to_users, ih.1], ?_⟩
    have h2 := ih.2
    by_cases h : process_tenant env u <;> simp [send_reports_to_users, h] <;> omega

/-- C10: `decrypt` is total — it returns `""` for empty input and for any
input the Fernet oracle fails on, and the decrypted plaintext otherwise —
and the dispatcher treats an empty decryption result as a per-tenant
failure. -/
theorem c10_decrypt_total_empty_on_failure :
    (∀ (fernet_dec : String → Option String) (s : String),
      (s = "" → decrypt fernet_dec s = "") ∧
      (fernet_dec s = none → decrypt fernet_dec s = "") ∧
      (∀ p, s ≠ "" → fernet_dec s = some p → decrypt fernet_dec s = p)) ∧
    (∀ (env : DispatchEnv) (user : ℤ × String),
      env.dec user.2 = "" → process_tenant env user = false) := by
  constructor
  · intro fd s
    refine ⟨fun h => by simp [decrypt, h], fun h => ?_,
      fun p hs hp => by simp [decrypt, hs, hp]⟩
    by_cases h0 : s = "" <;> simp [decrypt, h0, h]
  · intro env user h
    simp [process_tenant, h]

/-- Witness for C10: a concrete oracle and the scenario tenant whose blob
fails to decrypt. -/
theorem c10_decrypt_witness :
    decrypt sample_fernet "" = "" ∧ decrypt sample_fernet "bad" = "" ∧
      decrypt sample_fernet "blob" = "token" ∧
      process_tenant scenario_env (2, "encB") = false :=
  ⟨(c10_decrypt_total_empty_on_failure.1 sample_fernet "").1 rfl,
   (c10_decrypt_total_empty_on_failure.1 sample_fernet "bad").2.1 (by decide),
   (c10_decrypt_total_empty_on_failure.1 sample_fernet "blob").2.2 "token" (by decide) (by decide),
   c10_decrypt_total_empty_on_failure.2 scenario_env (2, "encB") (by decide)⟩

/-- Counterexample to C5: in `get_combined_sales_report` (one of the two
composite fetches the claim covers), a single failed branch makes the
whole composition fail (`None`) instead of substituting zeroed metrics. -/
theorem c5_combined_fails_on_missing_branch_cex :
    get_combined_sales_report "2024-01-05" "2024-01-05" none (some sample_orders_report) =
      none := rfl

/-- C5 amended: only `get_quick_report` substitutes zeroed metrics for a
failed branch and always yields a composite report;
`get_combined_sales_report` instead fails as a whole (`None`) whenever
either of its two sub-reports is missing. -/
theorem c5_quick_report_zero_substitution :
    (∀ (retail : Option RetailSalesReport) (orders : Option MoyskladReport),
      (retail = none → (mk_period_data retail orders).retail_sales = 0 ∧
        (mk_period_data retail orders).retail_count = 0) ∧
      (orders = none → (mk_period_data retail orders).order_sales = 0 ∧
        (mk_period_data retail orders).order_count = 0)) ∧
    (∀ (td wp mn : String) (tr wr mr : Option RetailSalesReport)
        (tor wor mor : Option MoyskladReport),
      get_quick_report td wp mn tr tor wr wor mr mor =
        some ⟨td, wp, mn, mk_period_data tr tor, mk_period_data wr wor,
          mk_period_data mr mor⟩) ∧
    (∀ (date_from date_to : String) (orders : Option MoyskladReport)
        (retail : Option RetailSalesReport),
      get_combined_sales_report date_from date_to none orders = none ∧
      get_combined_sales_report date_from date_to retail none = none) := by
  refine ⟨fun retail orders => ⟨fun h => ?_, fun h => ?_⟩,
    fun _ _ _ _ _ _ _ _ _ => rfl, fun df dt o r => ⟨rfl, ?_⟩⟩
  · subst h; exact ⟨rfl, rfl⟩
  · subst h; exact ⟨rfl, rfl⟩
  · cases r <;> rfl

/-- Witness for C5's amended statement at a concrete failed retail branch. -/
theorem c5_zero_substitution_witness :
    (mk_period_data none (some sample_orders_report)).retail_sales = 0 ∧
      (mk_period_data none (some sample_orders_report)).retail_count = 0 :=
  (c5_quick_report_zero_substitution.1 none (some sample_orders_report)).1 rfl

/-- C2: every produced combined report has `combined_total` equal to the
sum of the two channel totals, the two shares sum to exactly 100 whenever
`combined_total > 0`, and both shares are 0 when `combined_total = 0`. -/
theorem c2_combined_total_and_shares :
    ∀ (date_from date_to : String) (retail : RetailSalesReport) (orders : MoyskladReport)
      (c : CombinedSalesReport),
      get_combined_sales_report date_from date_to (some retail) (some orders) = some c →
      c.combined_total = retail.total_sales + orders.total_sales ∧
      (0 < c.combined_total → c.retail_share + c.orders_share = 100) ∧
      (c.combined_total = 0 → c.retail_share = 0 ∧ c.orders_share = 0) := by
  intro df dt retail orders c h
  obtain rfl := Option.some.inj h
  refine ⟨rfl, fun hpos => ?_, fun h0 => ?_⟩
  · dsimp only at hpos ⊢
    have hne : retail.total_sales + orders.total_sales ≠ 0 := ne_of_gt hpos
    rw [if_pos hpos, if_pos hpos]
    field_simp
    ring
  · dsimp only at h0 ⊢
    constructor <;> simp [h0]

/-- Witness for C2 at the sample retail and orders reports. -/
theorem c2_combined_shares_witness :
    sample_combined_report.combined_total =
        sample_retail_report.total_sales + sample_orders_report.total_sales ∧
      sample_combined_report.retail_share + sample_combined_report.orders_share = 100 := by
  have h := c2_combined_total_and_shares "2024-01-05" "2024-01-05" sample_retail_report
    sample_orders_report sample_combined_report
    (by norm_num [get_combined_sales_report, mk_period, sample_retail_report,
      sample_orders_report, sample_combined_report])
  exact ⟨h.1, h.2.1 (by norm_num [sample_combined_report])⟩

/-- Counterexample to C4: `get_retail_sales_report` performs no local
timestamp re-filtering — a retail demand whose `moment` (`2020-05-05`)
lies outside the requested window `[2024-01-01, 2024-01-02]` is still
counted and still contributes its 50 ₽ to `total_sales`. -/
theorem c4_retail_not_refiltered_cex :
    ((str_le "2024-01-01" (str_take "2020-05-05 10:00:00" 10) &&
        str_le (str_take "2020-05-05 10:00:00" 10) "2024-01-02") = false) ∧
      (get_retail_sales_report "2024-01-01" "2024-01-02"
          (some [{ id := some "d9", name := some "Продажа 9", sum := 5000,
                   moment := "2020-05-05 10:00:00", positions := [], store := some "S",
                   shift := none }])
          (some [])).map (fun r => (r.total_sales, r.total_orders)) = some (50, 1) := by
  refine ⟨by decide, ?_⟩
  norm_num [get_retail_sales_report, demand_sum_rub, mk_period]

/-- C4 amended: only the Orders channel re-validates record timestamps
locally — `get_sales_report` keeps an order lacking a truthy `created`
value, drops every order whose `created[:10]` falls outside the inclusive
window, and computes its aggregates over the filtered list — while
`get_retail_sales_report` keeps and aggregates every fetched record
regardless of its `moment`. -/
theorem c4_local_refilter_orders_only :
    (∀ (date_from date_to : String) (rows : List Order) (o : Order),
      o.created = none → o ∈ rows → o ∈ filter_orders date_from date_to rows) ∧
    (∀ (date_from date_to : String) (rows : List Order) (o : Order) (c : String),
      o.created = some c → c ≠ "" →
      (str_le date_from (str_take c 10) && str_le (str_take c 10) date_to) = false →
      o ∉ filter_orders date_from date_to rows) ∧
    (∀ (date_from date_to : String) (rows : List Order) (r : MoyskladReport),
      get_sales_report date_from date_to (some rows) = some r →
      r.total_sales = ((filter_orders date_from date_to rows).map order_sum_rub).sum ∧
      r.total_orders = (filter_orders date_from date_to rows).length) ∧
    (∀ (date_from date_to : String) (ds : List Demand) (rs : List ReturnItem)
        (r : RetailSalesReport),
      get_retail_sales_report date_from date_to (some ds) (some rs) = some r →
      r.total_orders = ds.length ∧ r.total_sales = (ds.map demand_sum_rub).sum) := by
  refine ⟨?_, ?_, ?_, ?_⟩
  · intro df dt rows o hc hm
    exact List.mem_filter.mpr ⟨hm, by simp [keep_order, hc]⟩
  · intro df dt rows o c hc hne hout hmem
    have hkeep := (List.mem_filter.mp hmem).2
    simp only [keep_order, hc, if_neg hne, hout] at hkeep
    exact absurd hkeep (by decide)
  · intro df dt rows r h
    simp only [get_sales_report] at h
    by_cases hl : (filter_orders df dt rows).length = 0
    · rw [if_pos hl] at h
      obtain rfl := Option.some.inj h
      have hnil : filter_orders df dt rows = [] := List.length_eq_zero.mp hl
      simp [hnil]
    · rw [if_neg hl] at h
      obtain rfl := Option.some.inj h
      exact ⟨rfl, rfl⟩
  · intro df dt ds rs r h
    simp only [get_retail_sales_report] at h
    obtain rfl := Option.some.inj h
    exact ⟨rfl, rfl⟩

/-- Witness for C4's amended statement: a timestampless order is kept, and
a retail fetch aggregates exactly its demand list. -/
theorem c4_refilter_witness :
    ((⟨none, none, none, 0, [], none⟩ : Order) ∈
        filter_orders "2024-02-02" "2024-02-02" [⟨none, none, none, 0, [], none⟩]) ∧
      empty_retail_report.total_orders = ([] : List Demand).length ∧
      empty_retail_report.total_sales = (([] : List Demand).map demand_sum_rub).sum := by
  have h4 := c4_local_refilter_orders_only.2.2.2 "2024-02-02" "2024-02-02" [] []
    empty_retail_report
    (by norm_num [get_retail_sales_report, empty_retail_report, mk_period,
      points_after_sales, points_after_returns, int_trunc, List.insertionSort])
  exact ⟨c4_local_refilter_orders_only.1 "2024-02-02" "2024-02-02" _ _ rfl (by simp),
    h4.1, h4.2⟩

/-- Counterexample to C8: the `products_count` field of the produced
report truncates the accumulated quantity with `int()`, so it is not
partition-additive — two orders each carrying a half-unit position give
`products_count = 1` as a whole but `0` in each singleton part. -/
theorem c8_truncated_quantity_not_partition_additive_cex :
    (get_sales_report "2024-01-01" "2024-01-31"
        (some [half_order "a", half_order "b"])).map (·.products_count) = some 1 ∧
      (get_sales_report "2024-01-01" "2024-01-31" (some [half_order "a"])).map
        (·.products_count) = some 0 ∧
      (get_sales_report "2024-01-01" "2024-01-31" (some [half_order "b"])).map
        (·.products_count) = some 0 ∧
      (1 : ℤ) ≠ 0 + 0 := by
  have hfl : ⌊(1 / 2 : ℚ)⌋ = 0 := by
    rw [Int.floor_eq_iff]
    norm_num
  have hf2 : filter_orders "2024-01-01" "2024-01-31" [half_order "a", half_order "b"] =
      [half_order "a", half_order "b"] := rfl
  have hfa : filter_orders "2024-01-01" "2024-01-31" [half_order "a"] = [half_order "a"] := rfl
  have hfb : filter_orders "2024-01-01" "2024-01-31" [half_order "b"] = [half_order "b"] := rfl
  refine ⟨?_, ?_, ?_, by decide⟩ <;>
  · simp only [get_sales_report, hf2, hfa, hfb]
    norm_num [half_order, order_quantity, order_sum_rub, int_trunc, hfl, mk_period]

/-- C8 amended: the reduction of `get_sales_report` is order-independent
(any permutation of the records yields identical total amount, record
count, and quantity accumulator), and total amount, record count, and the
quantity accumulator (the quantity total before the final `int()`
truncation) are partition-additive; the truncated `products_count` field
itself is not (see the counterexample). -/
theorem c8_reduction_order_independent_partition_additive :
    (∀ (l l' : List Order), l.Perm l' → sales_totals l = sales_totals l') ∧
    (∀ parts : List (List Order),
      (sales_totals parts.flatten).1 = (parts.map fun p => (sales_totals p).1).sum ∧
      (sales_totals parts.flatten).2.1 = (parts.map fun p => (sales_totals p).2.1).sum ∧
      (sales_totals parts.flatten).2.2 = (parts.map fun p => (sales_totals p).2.2).sum) := by
  constructor
  · intro l l' h
    simp only [sales_totals, Prod.mk.injEq]
    exact ⟨(h.map order_sum_rub).sum_eq, ⟨h.length_eq, (h.map order_quantity).sum_eq⟩⟩
  · intro parts
    refine ⟨?_, ?_, ?_⟩ <;>
      simp [sales_totals, List.map_flatten, List.sum_flatten, List.map_map, Function.comp_def]

/-- Witness for C8's amended statement at a concrete transposition. -/
theorem c8_reduction_witness :
    sales_totals [half_order "a", half_order "b"] =
      sales_totals [half_order "b", half_order "a"] :=
  c8_reduction_order_independent_partition_additive.1 _ _
    (List.Perm.swap (half_order "b") (half_order "a") [])

/-- C6: every produced retail report has a non-negative `returns_sum`
(each return's raw sum is taken by absolute value), lists only stores with
strictly positive net contribution, computes each listed store's share
against net sales (`total_sales - returns_sum`), and the
one-sale-100/one-return-40 scenario yields `total_sales = 100`,
`returns_sum = 40`, with the store's share computed against `60`. -/
theorem c6_returns_abs_and_net_shares :
    (∀ (date_from date_to : String) (ds : List Demand) (rs : List ReturnItem)
        (r : RetailSalesReport),
      get_retail_sales_report date_from date_to (some ds) (some rs) = some r →
      0 ≤ r.returns_sum ∧
      ∀ e ∈ r.retail_points, 0 < e.sales ∧
        e.share = if 0 < r.total_sales - r.returns_sum then
          e.sales / (r.total_sales - r.returns_sum) * 100 else 0) ∧
    ((get_retail_sales_report "2024-01-01" "2024-01-31" (some [c6_demand])
        (some [c6_return])).map
        (fun r => (r.total_sales, r.returns_sum, r.retail_points)) =
      some (100, 40, [⟨"Точка", 60, 60 / (100 - 40) * 100⟩])) := by
  constructor
  · intro df dt ds rs r h
    simp only [get_retail_sales_report] at h
    obtain rfl := Option.some.inj h
    constructor
    · refine List.sum_nonneg fun x hx => ?_
      obtain ⟨ri, _, rfl⟩ := List.mem_map.mp hx
      exact abs_nonneg _
    · intro e he
      have he1 := List.take_subset _ _ he
      rw [(List.perm_insertionSort store_ge _).mem_iff] at he1
      obtain ⟨p, hp, rfl⟩ := List.mem_map.mp he1
      have hpos := of_decide_eq_true (List.mem_filter.mp hp).2
      exact ⟨hpos, rfl⟩
  · have habs : |(-4000 : ℚ) / 100| = 40 := by
      rw [abs_of_nonpos (by norm_num)]
      norm_num
    have hper : mk_period "2024-01-01" "2024-01-31" = "2024-01-01 - 2024-01-31" := by decide
    norm_num [get_retail_sales_report, c6_demand, c6_return, demand_sum_rub,
      return_sum_rub, demand_store_name, return_store_name, points_after_sales,
      points_after_returns, bump_store, List.insertionSort, List.orderedInsert,
      habs, hper]

/-- Witness for C6 at the one-sale/one-return scenario: the hypothesis and
the store-membership premise are discharged at `c6_report`. -/
theorem c6_net_share_witness :
    0 ≤ c6_report.returns_sum ∧
      0 < (⟨"Точка", 60, 100⟩ : StorePoint).sales ∧
      (⟨"Точка", 60, 100⟩ : StorePoint).share =
        if 0 < c6_report.total_sales - c6_report.returns_sum then
          (⟨"Точка", 60, 100⟩ : StorePoint).sales /
            (c6_report.total_sales - c6_report.returns_sum) * 100
        else 0 := by
  have habs : |(-4000 : ℚ) / 100| = 40 := by
    rw [abs_of_nonpos (by norm_num)]
    norm_num
  have hper : mk_period "2024-01-01" "2024-01-31" = "2024-01-01 - 2024-01-31" := by decide
  have h := (c6_returns_abs_and_net_shares.1 "2024-01-01" "2024-01-31" [c6_demand]
    [c6_return] c6_report
    (by
      norm_num [get_retail_sales_report, c6_demand, c6_return, c6_report, demand_sum_rub,
        return_sum_rub, demand_quantity, return_quantity, demand_store_name, return_store_name,
        points_after_sales, points_after_returns, bump_store, List.insertionSort,
        List.orderedInsert, habs, hper, int_trunc, upsert_cashier]))
  have h2 := h.2 ⟨"Точка", 60, 100⟩ (by norm_num [c6_report])
  exact ⟨h.1, h2.1, h2.2⟩

/-- Counterexample to C7: the code takes the first N of the ranking and
only then discards non-positive-quantity entries, so a zero-quantity
product that ranks in the top N crowds out a positive one — here top-1
returns `[]` even though the first positive-quantity entry of the ranking
is `Y`. -/
theorem c7_filter_after_take_cex :
    get_top_products [⟨"X", 0, 500⟩, ⟨"Y", 3, 100⟩] 1 = some [] ∧
      (((([⟨"X", 0, 500⟩, ⟨"Y", 3, 100⟩] : List ProductStat).insertionSort
          rank_ge).filter (fun s => 0 < s.quantity)).take 1).map round_stat =
        [round_stat ⟨"Y", 3, 100⟩] ∧
      round_stat ⟨"Y", 3, 100⟩ = ⟨"Y", 3, 100⟩ := by
  refine ⟨?_, ?_, ?_⟩
  · norm_num [get_top_products, List.insertionSort, List.orderedInsert, rank_ge]
    all_goals decide
  · norm_num [List.insertionSort, List.orderedInsert, rank_ge]
  · norm_num [round_stat, round2, round_half_even]

/-- C7 amended: `get_top_products` ranks by `(amount, quantity)`
descending over the accumulated (pre-rounding) values, keeps only entries
with strictly positive accumulated quantity, and returns the first N
entries of the ranking with the non-positive ones then discarded (so fewer
than N entries can be returned even when more positive entries exist
further down); the A/B scenario gives top-1 `[A]` and top-2 `[A, B]`. -/
theorem c7_top_products_ranking :
    (∀ (products : List ProductStat) (limit : ℕ) (l : List ProductStat),
      get_top_products products limit = some l →
      List.Sorted rank_ge (products.insertionSort rank_ge) ∧
      (products.insertionSort rank_ge).Perm products ∧
      l = (((products.insertionSort rank_ge).take limit).filter
            (fun s => 0 < s.quantity)).map round_stat ∧
      ∀ e ∈ l, ∃ s ∈ products, 0 < s.quantity ∧ e = round_stat s) ∧
    (accumulate_products [⟨"A", 3, 10000⟩, ⟨"B", 10, 1000⟩] =
        [⟨"A", 3, 300⟩, ⟨"B", 10, 100⟩] ∧
      get_top_products [⟨"A", 3, 300⟩, ⟨"B", 10, 100⟩] 1 = some [⟨"A", 3, 300⟩] ∧
      get_top_products [⟨"A", 3, 300⟩, ⟨"B", 10, 100⟩] 2 =
        some [⟨"A", 3, 300⟩, ⟨"B", 10, 100⟩]) := by
  constructor
  · intro products limit l h
    by_cases hp : products = []
    · simp [get_top_products, hp] at h
    · simp only [get_top_products, if_neg hp] at h
      obtain rfl := Option.some.inj h
      refine ⟨List.sorted_insertionSort rank_ge products,
        List.perm_insertionSort rank_ge products, rfl, ?_⟩
      intro e he
      obtain ⟨s, hs, rfl⟩ := List.mem_map.mp he
      have hs1 := List.mem_filter.mp hs
      exact ⟨s, (List.perm_insertionSort rank_ge products).mem_iff.mp
        (List.take_subset _ _ hs1.1), of_decide_eq_true hs1.2, rfl⟩
  · refine ⟨?_, ?_, ?_⟩ <;>
    · norm_num [accumulate_products, bump_product, get_top_products, List.insertionSort,
        List.orderedInsert, rank_ge, round_stat, round2, round_half_even]
      all_goals decide

/-- Witness for C7's amended statement at the A/B scenario with top-2. -/
theorem c7_ranking_witness :
    List.Sorted rank_ge
        (([⟨"A", 3, 300⟩, ⟨"B", 10, 100⟩] : List ProductStat).insertionSort rank_ge) ∧
      (([⟨"A", 3, 300⟩, ⟨"B", 10, 100⟩] : List ProductStat).insertionSort rank_ge).Perm
        [⟨"A", 3, 300⟩, ⟨"B", 10, 100⟩] ∧
      [round_stat ⟨"A", 3, 300⟩, round_stat ⟨"B", 10, 100⟩] =
        (((([⟨"A", 3, 300⟩, ⟨"B", 10, 100⟩] : List ProductStat).insertionSort
            rank_ge).take 2).filter (fun s => 0 < s.quantity)).map round_stat := by
  have h := c7_top_products_ranking.1 [⟨"A", 3, 300⟩, ⟨"B", 10, 100⟩] 2
    [round_stat ⟨"A", 3, 300⟩, round_stat ⟨"B", 10, 100⟩]
    (by
      norm_num [get_top_products, List.insertionSort, List.orderedInsert, rank_ge]
      all_goals decide)
  exact ⟨h.1, h.2.1, h.2.2.1⟩
